import Mathlib

/-!
Verification of the LinkGateway core of the `myblog` backend.

Shallow embedding of the gateway's pure logic, translated from the Python
source under `my_blog_backend/`:

* `BaseEngine/base.py` — caller validation and `handle_request`;
* `LinkGateway/api_mapper.py` — path normalization, conflict detection,
  route registration, and the business/engine mapping passes;
* `LinkGateway/inner_comm.py` and `LinkGateway/service_proxy.py` — the
  synchronous dispatch surfaces;
* `LinkGateway/registry.py` — engine instance creation, registration,
  start-with-timeout, and the `is_service_allowed` topology predicate;
* `LinkGateway/standards.py` — manifest validation;
* `LinkGateway/plugin.py` — the plugin hook chains.

Nondeterministic or environmental effects (uuid generation, wall-clock
timeouts, the outcome of dynamically loaded handler code) are passed in as
explicit parameters; everything else follows the Python control flow
statement by statement.
-/

namespace MyBlog

/-- Python's `pat in s` substring test, on character lists:
`pat` occurs contiguously in `s`. -/
def containsSub (pat : List Char) : List Char → Bool
  | [] => pat.isEmpty
  | c :: t => List.isPrefixOf pat (c :: t) || containsSub pat t

/-- Python's `pat in s` on strings. -/
def strIn (pat s : String) : Bool :=
  containsSub pat.toList s.toList

/-! ### Path normalization — `APIMapper._normalize_path` (api_mapper.py:29-47)

```python
if not path: return ""
if not path.startswith("/"): path = f"/{path}"
if path != "/" and path.endswith("/"): path = path[:-1]
return path
```

The character-list core `normPath` mirrors the three steps; `normalizePath`
wraps it for `String`. -/

/-- Core of `_normalize_path` on character lists. -/
def normPath (l : List Char) : List Char :=
  if l = [] then []
  else
    let l1 := if l.head? = some '/' then l else '/' :: l
    if l1 ≠ ['/'] ∧ l1.getLast? = some '/' then l1.dropLast else l1

/-- `APIMapper._normalize_path` on strings. -/
def normalizePath (p : String) : String :=
  String.mk (normPath p.toList)

/-! ### Caller validation — `BaseEngine._validate_caller` / `handle_request`
(base.py:125-187) -/

/-- One frame of the Python call stack as `inspect.stack()` reports it. -/
structure Frame where
  filename : String
  function : String
deriving DecidableEq, Repr

/-- The function names accepted by `_validate_caller` (base.py:179). -/
def sanctionedFuncs : List String :=
  ["forward_request", "send_request", "proxy_request", "send_async_request"]

/-- A frame passes the gateway check of `_validate_caller`:
`"LinkGateway" in filename or "gateway.py" in filename` and the function
name is one of the sanctioned forwarding operations. -/
def frameSanctioned (f : Frame) : Bool :=
  (strIn "LinkGateway" f.filename || strIn "gateway.py" f.filename)
    && sanctionedFuncs.contains f.function

/-- `BaseEngine._validate_caller` (base.py:159-187): scan the stack for a
sanctioned gateway frame; failing that, fall back to the
`_allow_direct_call` flag. -/
def validate_caller (stack : List Frame) (allow_direct_call : Bool) : Bool :=
  stack.any frameSanctioned || allow_direct_call

/-- Result of `BaseEngine.handle_request`: either a `PermissionError` or the
value produced by the subclass's `_handle_request_impl`. -/
inductive HandleResult (R : Type) where
  | permissionError (msg : String)
  | ok (r : R)
deriving DecidableEq, Repr

/-- `BaseEngine.handle_request` (base.py:125-143): validate the caller, then
run the subclass implementation `impl`. -/
def handle_request {R : Type} (service_id : String) (stack : List Frame)
    (allow_direct_call : Bool) (impl : String → String → R)
    (action data : String) : HandleResult R :=
  if ¬ validate_caller stack allow_direct_call then
    .permissionError
      (s!"非法调用引擎 {service_id}！请通过 LinkGateway 的内部通信机制调用。")
  else
    .ok (impl action data)

/-! ### Synchronous dispatch — `InnerCommunicator.send_request`
(inner_comm.py:45-91) and `ServiceProxy.forward_request`
(service_proxy.py:208-280)

An engine's dynamically loaded handler is abstracted as a function from
`(action, data)` to an outcome: a returned payload (possibly carrying its
own `status` key) or a raised exception. -/

/-- Outcome of calling `engine.handle_request(action, data)`. -/
inductive HandleOutcome where
  | ok (ownStatus : Option String) (payload : String)
  | exn (msg : String)
deriving DecidableEq, Repr

/-- A resident engine as the dispatcher sees it. -/
structure EngineBehavior where
  handle : String → String → HandleOutcome

/-- The `Response` envelope of protocol.py (timestamp omitted). -/
structure ResponseEnv where
  request_id : String
  status : String
  code : Nat
  payload : String
  error : Option String
deriving DecidableEq, Repr

/-- `Response.success` (protocol.py:44-60). -/
def responseSuccess (rid payload : String) : ResponseEnv :=
  ⟨rid, "success", 200, payload, none⟩

/-- `Response.error` (protocol.py:62-81); `data` is set to the empty dict. -/
def responseError (rid : String) (code : Nat) (err : String) : ResponseEnv :=
  ⟨rid, "error", code, "", some err⟩

/-- `InnerCommunicator.send_request` (inner_comm.py:45-91). The fresh
`request_id` drawn by `Request`'s uuid4 default is passed in as `rid`.
Returns `none` exactly where the Python returns `None`. -/
def send_request (reg : List (String × EngineBehavior)) (rid : String)
    (target action data : String) : Option ResponseEnv :=
  match reg.lookup target with
  | none => none
  | some e =>
    match e.handle action data with
    | .ok _ rd => some (responseSuccess rid rd)
    | .exn m => some (responseError rid 500 m)

/-- The plain result dict built by `ServiceProxy.forward_request`. -/
structure ProxyResult where
  status : String
  error : Option String
  engine_id : Option String
  action : Option String
  payload : Option String
deriving DecidableEq, Repr

/-- `ServiceProxy.forward_request` (service_proxy.py:208-280). A handler
result that already carries a `status` key keeps it; otherwise `status`
is set to `"success"`. -/
def forward_request (reg : List (String × EngineBehavior))
    (healthy : String → Bool) (engine_id action data : String) : ProxyResult :=
  if engine_id = "" then
    ⟨"error", some "Engine ID cannot be empty", none, none, none⟩
  else if action = "" then
    ⟨"error", some "Action cannot be empty", none, none, none⟩
  else
    match reg.lookup engine_id with
    | none =>
      ⟨"error", some s!"Engine {engine_id} not found", some engine_id, none, none⟩
    | some e =>
      if ¬ healthy engine_id then
        ⟨"error", some s!"Engine {engine_id} is not healthy", some engine_id,
          none, none⟩
      else
        match e.handle action data with
        | .ok ownStatus rd =>
          ⟨ownStatus.getD "success", none, some engine_id, some action, some rd⟩
        | .exn m =>
          ⟨"error", some m, some engine_id, some action, none⟩

/-! ### Call-topology predicate — `ServiceRegistry.is_service_allowed`
(registry.py:1390-1418) -/

/-- `ServiceType` of db.py as the registry compares it. -/
inductive SType where
  | business
  | engine
deriving DecidableEq, Repr

/-- The slice of a persisted service descriptor that the predicate reads. -/
structure DbService where
  service_type : SType
deriving DecidableEq, Repr

/-- `ServiceRegistry.is_service_allowed` (registry.py:1390-1418). -/
def is_service_allowed (db : List (String × DbService))
    (source_service_id target_service_id : String) : Bool :=
  match db.lookup source_service_id, db.lookup target_service_id with
  | some s, some t =>
    if s.service_type = .engine ∧ t.service_type = .engine then false else true
  | _, _ => false

/-! ### Manifest validation — `ServiceStandard.validate_service_json`
(standards.py:54-98)

Python dict values are embedded as `JVal`; a dict is an association list.
`_check_required_fields` returns a dict, and `validate_service_json`
tests that dict with `if not ...` — i.e. dict truthiness — which the
embedding keeps as `dictTruthy`. -/

/-- A JSON-ish Python value. -/
inductive JVal where
  | s (v : String)
  | b (v : Bool)
  | d (fields : List (String × JVal))
  | arr (xs : List JVal)

/-- Python truthiness of a `JVal`. -/
def jTruthy : JVal → Bool
  | .s v => !(v == "")
  | .b v => v
  | .d f => !f.isEmpty
  | .arr xs => !xs.isEmpty

/-- A Python dict with string keys. -/
abbrev PyDict := List (String × JVal)

/-- Python truthiness of a dict (`if not result:`): non-empty is true. -/
def dictTruthy (d : PyDict) : Bool := !d.isEmpty

/-- Read the `valid` entry of a validation-result dict. -/
def getValid (d : PyDict) : Bool :=
  match d.lookup "valid" with
  | some (.b v) => v
  | _ => false

/-- `ServiceStandard.REQUIRED_FIELDS` (standards.py:10-14). -/
def serviceRequiredFields : List String := ["service_id", "service_name", "version"]

/-- `ServiceStandard._check_required_fields` (standards.py:83-98): the first
missing field yields an invalid dict naming it; otherwise `{"valid": True}`.
An entry that is not a dict is treated as having no keys. -/
def check_required_fields (config : PyDict) (required : List String) : PyDict :=
  match required.find? (fun f => (config.lookup f).isNone) with
  | some f => [("valid", .b false), ("reason", .s s!"Missing required field: {f}")]
  | none => [("valid", .b true)]

/-- `ServiceStandard._check_service_id_format` (standards.py:100-113). -/
def check_service_id_format (m : PyDict) : PyDict :=
  match m.lookup "service_id" with
  | none => [("valid", .b false), ("reason", .s "Missing service_id")]
  | some v =>
    if ¬ jTruthy v then [("valid", .b false), ("reason", .s "Missing service_id")]
    else [("valid", .b true)]

/-- `ServiceStandard._validate_database_config` (standards.py:115-141). -/
def validate_database_config : JVal → PyDict
  | .d fields =>
    let r := check_required_fields fields ["type"]
    if ¬ getValid r then r
    else
      match fields.lookup "type" with
      | some (.s ts) =>
        if ts == "" then [("valid", .b false), ("reason", .s "Missing database type")]
        else if ts ∈ ["sqlite", "mysql", "postgresql"] then [("valid", .b true)]
        else [("valid", .b false), ("reason", .s s!"Unsupported database type: {ts}")]
      | some v =>
        if ¬ jTruthy v then
          [("valid", .b false), ("reason", .s "Missing database type")]
        else
          [("valid", .b false), ("reason", .s "Unsupported database type: <non-string>")]
      | none => [("valid", .b false), ("reason", .s "Missing database type")]
  | _ => [("valid", .b false), ("reason", .s "Database config must be a dictionary")]

/-- `ServiceStandard.API_REQUIRED_FIELDS` (standards.py:39-43). -/
def apiRequiredFields : List String := ["path", "method"]

/-- `ServiceStandard._validate_apis_config` (standards.py:143-165), for the
business-service field set. -/
def validate_apis_config : JVal → PyDict
  | .arr xs =>
    let step (api : JVal) : Option PyDict :=
      let fields := match api with
        | .d f => f
        | _ => []
      let r := check_required_fields fields apiRequiredFields
      if ¬ getValid r then some r else none
    match xs.findSome? step with
    | some r => r
    | none => [("valid", .b true)]
  | _ => [("valid", .b false), ("reason", .s "APIs must be a list")]

/-- `ServiceStandard.validate_service_json` (standards.py:54-81), with the
source's `if not cls._check_required_fields(...)` / `if not
cls._check_service_id_format(...)` — truthiness tests on the returned,
always non-empty dicts — kept as written. -/
def validate_service_json (m : PyDict) : PyDict :=
  if ¬ dictTruthy (check_required_fields m serviceRequiredFields) then
    [("valid", .b false), ("reason", .s "Missing required fields")]
  else if ¬ dictTruthy (check_service_id_format m) then
    [("valid", .b false), ("reason", .s "Invalid service_id format")]
  else
    let dbStep : Option PyDict :=
      match m.lookup "database" with
      | some dbc =>
        let r := validate_database_config dbc
        if ¬ getValid r then some r else none
      | none => none
    match dbStep with
    | some r => r
    | none =>
      let apiStep : Option PyDict :=
        match m.lookup "apis" with
        | some as0 =>
          let r := validate_apis_config as0
          if ¬ getValid r then some r else none
        | none => none
      match apiStep with
      | some r => r
      | none =>
        [("valid", .b true), ("reason", .s "Service JSON format is valid")]

/-! ### API mapper state — `APIMapper` (api_mapper.py)

The mapper's mutable state is the router table (service id → router
prefix), the api registry keyed by full path, the list of service ids
whose routers were included into the main router, and the
`registered_apis` collection. Route handler objects carry no logic the
claims depend on and are omitted. -/

/-- Python's `str.upper()` as the mapper applies it to HTTP method names. -/
def strUpper (s : String) : String :=
  String.mk (s.toList.map Char.toUpper)

/-- Python dict assignment `d[k] = v`: replace in place, or append. -/
def dictInsert {α : Type} (k : String) (v : α) :
    List (String × α) → List (String × α)
  | [] => [(k, v)]
  | (k', v') :: t => if k' = k then (k, v) :: t else (k', v') :: dictInsert k v t

/-- The `api_info` record stored in `api_registry` (the fields the claims
read; timestamps, tags and descriptions omitted). -/
structure ApiInfo where
  service_id : String
  path : String
  full_path : String
  methods : List String
deriving DecidableEq, Repr

/-- The `APIMapper` state. -/
structure MapperState where
  routers : List (String × String)
  api_registry : List (String × ApiInfo)
  mounted : List String
  registered_apis : List (String × String)
deriving DecidableEq, Repr

/-- A freshly constructed (or `clear_apis`-reset) mapper. -/
def initMapperState : MapperState := ⟨[], [], [], []⟩

/-- `APIMapper.create_router` (api_mapper.py:76-98): store a router with
the normalized prefix; nothing is mounted here. -/
def create_router (st : MapperState) (service_id api_prefix : String) :
    MapperState :=
  { st with routers := dictInsert service_id (normalizePath api_prefix) st.routers }

/-- `APIMapper._check_path_conflict` (api_mapper.py:49-74): a conflict is a
registered entry at the same full path whose method set intersects. -/
def check_path_conflict (registry : List (String × ApiInfo))
    (full_path : String) (methods : List String) : Bool :=
  match registry.lookup full_path with
  | some existing => methods.any (fun m => existing.methods.contains m)
  | none => false

/-- The `if service_id not in self.routers: self.create_router(service_id)`
step at the top of `add_api_route`. -/
def ensureRouter (st : MapperState) (service_id : String) : MapperState :=
  if (st.routers.lookup service_id).isSome then st
  else create_router st service_id ""

/-- The full path `add_api_route` computes for a registration: the stored
router prefix (empty when absent, matching `if router.prefix:` falling to
the bare path) followed by the normalized path. -/
def fullPathFor (st : MapperState) (service_id path : String) : String :=
  (((ensureRouter st service_id).routers.lookup service_id).getD "")
    ++ normalizePath path

/-- `APIMapper.add_api_route` (api_mapper.py:100-166): ensure a router,
normalize the path, build the full path from the router prefix, uppercase
the methods, reject on conflict, otherwise record the route. -/
def add_api_route (st : MapperState) (service_id path : String)
    (methods : List String) : Bool × MapperState :=
  if check_path_conflict (ensureRouter st service_id).api_registry
      (fullPathFor st service_id path) (methods.map strUpper) then
    (false, ensureRouter st service_id)
  else
    (true, { ensureRouter st service_id with
      api_registry := dictInsert (fullPathFor st service_id path)
        (ApiInfo.mk service_id (normalizePath path)
          (fullPathFor st service_id path) (methods.map strUpper))
        (ensureRouter st service_id).api_registry })

/-- One `apis` entry of an engine manifest as `_register_engine_api`
reads it. -/
structure ApiDef where
  path : String
  method : String
deriving DecidableEq, Repr

/-- A `services` entry passed to `map_all_apis` (`registry.list_services`). -/
structure SvcEntry where
  service_id : String
  type : SType
  apis : List ApiDef
deriving DecidableEq, Repr

/-- `APIStandard.ENGINE_API_PREFIX.format(engine_name=service_id)`
(standards.py:368). -/
def engineApiPrefix (service_id : String) : String := "/api/" ++ service_id

/-- `APIStandard.SERVICE_API_PREFIX.format(service_id=service_id)`
(standards.py:367). -/
def serviceApiPrefix (service_id : String) : String := "/api/" ++ service_id

/-- `APIMapper._register_engine_api` (api_mapper.py:561-594): record a
documentation entry in the registry unless it conflicts; never touches
the main router. -/
def register_engine_api (st : MapperState) (service_id npfx : String)
    (api : ApiDef) : MapperState :=
  if check_path_conflict st.api_registry (npfx ++ normalizePath api.path)
      [strUpper api.method] then st
  else
    { st with
      api_registry := dictInsert (npfx ++ normalizePath api.path)
        (ApiInfo.mk service_id (normalizePath api.path)
          (npfx ++ normalizePath api.path) [strUpper api.method])
        st.api_registry,
      registered_apis := st.registered_apis ++
        [(service_id, npfx ++ normalizePath api.path)] }

/-- `APIMapper._map_engine_service` (api_mapper.py:540-559): create the
engine-scoped router and record every declared api; the router is never
included into the main router. -/
def map_engine_service (st : MapperState) (service_id : String)
    (apis : List ApiDef) : MapperState :=
  let npfx := normalizePath (engineApiPrefix service_id)
  let st1 := create_router st service_id npfx
  apis.foldl (fun s a => register_engine_api s service_id npfx a) st1

/-- `APIMapper.map_business_apis` (api_mapper.py:168-365), reduced to its
state effect: create the prefixed router, run the dynamically imported
route module against the router object (which never touches
`api_registry` — the registration loop at lines 311-356 runs only when
the router's route list is empty and then iterates that empty list), and
include the router into the main router. `ok` abstracts the `try`
succeeding; on failure nothing is mounted. -/
def map_business_service (st : MapperState) (service_id : String)
    (ok : Bool) : Bool × MapperState :=
  if ok then
    let st1 := create_router st service_id
      (normalizePath (serviceApiPrefix service_id))
    (true, { st1 with mounted := st1.mounted ++ [service_id] })
  else (false, st)

/-- The per-service step of `map_all_apis` (api_mapper.py:489-523), state
part. -/
def mapServiceState (bizOk : String → Bool) (s : MapperState)
    (svc : SvcEntry) : MapperState :=
  match svc.type with
  | .business => (map_business_service s svc.service_id (bizOk svc.service_id)).2
  | .engine => map_engine_service s svc.service_id svc.apis

/-- `APIMapper.map_all_apis` (api_mapper.py:489-523): clear the collected
registrations, process every service, and report the success/failed id
lists. -/
def map_all_apis (st0 : MapperState) (services : List SvcEntry)
    (bizOk : String → Bool) : (List String × List String) × MapperState :=
  services.foldl
    (fun acc svc =>
      match svc.type with
      | .business =>
        if bizOk svc.service_id then
          ((acc.1.1 ++ [svc.service_id], acc.1.2), mapServiceState bizOk acc.2 svc)
        else
          ((acc.1.1, acc.1.2 ++ [svc.service_id]), mapServiceState bizOk acc.2 svc)
      | .engine =>
        ((acc.1.1 ++ [svc.service_id], acc.1.2), mapServiceState bizOk acc.2 svc))
    (([], []), { st0 with registered_apis := [] })

/-! ### Engine creation, registration and start — `ServiceRegistry`
(registry.py:620-980) and `BaseEngine.__init__` (base.py:25-50)

`uuid.uuid4()` is nondeterministic; the value it draws is passed in as an
explicit `freshId` parameter. -/

/-- The attributes of a `BaseEngine` instance the registry reads. -/
structure EngineInst where
  service_id : String
  service_name : String
  version : String
  engine_type : String
  status : String
  allow_direct_call : Bool
deriving DecidableEq, Repr

/-- `BaseEngine.__init__` (base.py:25-50): the instance's `service_id` is a
fresh uuid4 (`freshId`), NOT the first constructor argument, which is the
`service_name`; status starts `"stopped"` and `_allow_direct_call` false. -/
def baseEngineInit (freshId service_name version engine_type : String) :
    EngineInst :=
  ⟨freshId, service_name, version, engine_type, "stopped", false⟩

/-- The manifest fields `_load_and_create_engine` reads
(registry.py:746-787). -/
structure EngineConfig where
  service_id : String
  service_name : String
  version : String
  engine_type : String
deriving DecidableEq, Repr

/-- `ServiceRegistry._create_engine_instance` (registry.py:811-828): the call
`engine_class(service_id, engine_config["version"])` passes the manifest's
`service_id` as the constructor's `service_name` parameter (engine
subclasses forward it to `BaseEngine.__init__`); afterwards `service_name`
and `engine_type` are overwritten from the manifest. The instance's
`service_id` stays the generated uuid. -/
def create_engine_instance (freshId : String) (cfg : EngineConfig) :
    EngineInst :=
  { baseEngineInit freshId cfg.service_id cfg.version "kernel" with
    service_name := cfg.service_name, engine_type := cfg.engine_type }

/-- `ServiceRegistry._register_engine_to_memory` (registry.py:870-883):
`self.engines[metadata["service_id"]] = engine`, where the metadata is
`engine.get_metadata()` (base.py:219-234), so the key is the instance's
own `service_id`. -/
def register_engine_to_memory (mem : List (String × EngineInst))
    (e : EngineInst) : List (String × EngineInst) :=
  dictInsert e.service_id e mem

/-- `ServiceRegistry.get_engine` (registry.py:1006-1016). -/
def get_engine (mem : List (String × EngineInst)) (engine_id : String) :
    Option EngineInst :=
  mem.lookup engine_id

/-- What the start-worker thread did by the time `thread.join(timeout)`
returned: `engine.start()` finished with a boolean, raised, or is still
running (timed out). `statusAfter` is the engine's `status` attribute
observable at that moment. -/
inductive StartOutcome where
  | finished (ok : Bool) (statusAfter : String)
  | raised (msg : String) (statusAfter : String)
  | timedOut (statusAfter : String)
deriving DecidableEq, Repr

/-- The engine status at join time. -/
def statusAfterStart : StartOutcome → String
  | .finished _ st => st
  | .raised _ st => st
  | .timedOut st => st

/-- `ServiceRegistry._start_engine_with_timeout` (registry.py:940-980):
timeout and exception both yield `False`; otherwise the boolean that
`engine.start()` returned. -/
def start_engine_with_timeout (o : StartOutcome) : Bool :=
  match o with
  | .timedOut _ => false
  | .raised _ _ => false
  | .finished ok _ => ok

/-- `ServiceRegistry._start_engine_safely` (registry.py:830-846): it only
logs the boolean; the engine keeps whatever status the start attempt left
(its except-branch never fires because `_start_engine_with_timeout`
swallows exceptions itself). -/
def start_engine_safely (e : EngineInst) (o : StartOutcome) : EngineInst :=
  { e with status := statusAfterStart o }

/-- The persisted descriptor slice written by
`ServiceRegistry._register_engine_to_db` (registry.py:885-916). -/
structure DbRecord where
  service_id : String
  status : String
  reason : Option String
deriving DecidableEq, Repr

/-- `ServiceRegistry._register_engine_to_db` (registry.py:885-916): VALID
when the metadata status is `"running"`, otherwise INVALID with the
generic startup-failure reason. -/
def register_engine_to_db (metaStatus service_id : String) : DbRecord :=
  if metaStatus == "running" then ⟨service_id, "valid", none⟩
  else
    ⟨service_id, "invalid",
      some s!"Engine startup failed, current status: {metaStatus}"⟩

/-- One entry of the list `discover_engines` returns. -/
structure DiscEntry where
  service_id : String
  status : String
  reason : Option String
deriving DecidableEq, Repr

/-- `ServiceRegistry._process_engine` (registry.py:620-681), on the path
where config and class loading succeeded: start the engine (safely),
register it to memory and db, and return a result whose status is the
literal `"valid"` regardless of the start outcome. -/
def process_engine (freshId : String) (cfg : EngineConfig)
    (o : StartOutcome) (mem : List (String × EngineInst)) :
    DiscEntry × DbRecord × List (String × EngineInst) :=
  let e := start_engine_safely (create_engine_instance freshId cfg) o
  (⟨e.service_id, "valid", none⟩,
    register_engine_to_db e.status e.service_id,
    register_engine_to_memory mem e)

/-- `ServiceRegistry.discover_engines` (registry.py:583-618): process each
located engine independently, appending one result per engine. -/
def discover_engines (entries : List (String × EngineConfig × StartOutcome)) :
    List DiscEntry :=
  entries.map (fun x => (process_engine x.1 x.2.1 x.2.2 []).1)

/-! ### Plugin hook chains — `PluginManager` (plugin.py:606-693)

A plugin hook call either returns an `Optional` value or raises; the
manager iterates `self.plugins.values()` in registration order. -/

/-- Outcome of one plugin hook invocation. -/
inductive HOut (α : Type) where
  | ret (r : Option α)
  | exn (msg : String)

/-- A loaded plugin: its derived name and its five hook behaviors. -/
structure PluginP where
  name : String
  onRequestIncoming : String → HOut String
  onServiceCallingEngine : String → String → String → String → HOut Unit
  onEngineResponding : String → String → String → HOut Unit
  onRouteMatching : String → String → HOut String
  onResponseOutgoing : String → HOut String

/-- The short-circuiting loop shared by `notify_request_incoming`
(plugin.py:606-623), `notify_route_matching` (plugin.py:656-674) and
`notify_response_outgoing` (plugin.py:676-693): visit plugins in order,
return the first non-`None` result, catch exceptions and continue.
Also returns the list of plugins invoked. -/
def chainFirst (hook : PluginP → HOut String) :
    List PluginP → Option String × List String
  | [] => (none, [])
  | p :: ps =>
    match hook p with
    | .ret (some r) => (some r, [p.name])
    | .ret none => ((chainFirst hook ps).1, p.name :: (chainFirst hook ps).2)
    | .exn _ => ((chainFirst hook ps).1, p.name :: (chainFirst hook ps).2)

/-- `PluginManager.notify_request_incoming` (plugin.py:606-623). -/
def notify_request_incoming (ps : List PluginP) (request : String) :
    Option String × List String :=
  chainFirst (fun p => p.onRequestIncoming request) ps

/-- `PluginManager.notify_route_matching` (plugin.py:656-674). -/
def notify_route_matching (ps : List PluginP) (path method : String) :
    Option String × List String :=
  chainFirst (fun p => p.onRouteMatching path method) ps

/-- `PluginManager.notify_response_outgoing` (plugin.py:676-693). -/
def notify_response_outgoing (ps : List PluginP) (response : String) :
    Option String × List String :=
  chainFirst (fun p => p.onResponseOutgoing response) ps

/-- The observational loop shared by `notify_service_calling_engine`
(plugin.py:625-639) and `notify_engine_responding` (plugin.py:641-654):
every plugin is invoked; nothing short-circuits; exceptions are caught.
Returns the list of plugins invoked. -/
def runAll (hook : PluginP → HOut Unit) : List PluginP → List String
  | [] => []
  | p :: ps =>
    match hook p with
    | _ => p.name :: runAll hook ps

/-- `PluginManager.notify_service_calling_engine` (plugin.py:625-639). -/
def notify_service_calling_engine (ps : List PluginP)
    (service_id engine_id action data : String) : List String :=
  runAll (fun p => p.onServiceCallingEngine service_id engine_id action data) ps

/-- `PluginManager.notify_engine_responding` (plugin.py:641-654). -/
def notify_engine_responding (ps : List PluginP)
    (engine_id action response : String) : List String :=
  runAll (fun p => p.onEngineResponding engine_id action response) ps

/-- A plugin whose every hook raises. -/
def pluginRaiser : PluginP :=
  ⟨"raiser", fun _ => .exn "boom", fun _ _ _ _ => .exn "boom",
    fun _ _ _ => .exn "boom", fun _ _ => .exn "boom", fun _ => .exn "boom"⟩

/-- A plugin answering every short-circuiting hook with a canned result. -/
def pluginResponder : PluginP :=
  ⟨"responder", fun _ => .ret (some "canned"), fun _ _ _ _ => .ret none,
    fun _ _ _ => .ret none, fun _ _ => .ret (some "route"),
    fun _ => .ret (some "rewritten")⟩

/-- A sample engine manifest used by concrete witnesses. -/
def sampleEngineConfig : EngineConfig :=
  ⟨"file-engine", "FileEngine", "1.0.0", "kernel"⟩

/-- A resident engine whose handler always raises. -/
def engineRaisingBoom : EngineBehavior := ⟨fun _ _ => .exn "boom"⟩

/-- The failing manifest of C6: `service_id` is missing. This is the exact
input of the repo's own test `test_validate_service_json_missing_required_fields`. -/
def c6ManifestMissingId : PyDict :=
  [("service_name", .s "测试服务"), ("version", .s "1.0.0")]

end MyBlog

namespace MyBlog

/-! ### Facts about `normPath` used by claim C10 -/

theorem normPath_nil : normPath [] = [] := rfl

theorem head?_normPath (l : List Char) (h : l ≠ []) :
    (normPath l).head? = some '/' := by
  unfold normPath
  rw [if_neg h]
  by_cases hstart : l.head? = some '/'
  · rw [if_pos hstart]
    by_cases hc : l ≠ ['/'] ∧ l.getLast? = some '/'
    · rw [if_pos hc]
      rcases l with _ | ⟨a, _ | ⟨b, t⟩⟩
      · exact absurd rfl h
      · simp only [List.head?_cons, Option.some.injEq] at hstart
        subst hstart
        exact absurd rfl hc.1
      · simp only [List.head?_cons, Option.some.injEq] at hstart
        subst hstart
        rfl
    · rw [if_neg hc]
      exact hstart
  · rw [if_neg hstart]
    by_cases hc : ('/' :: l) ≠ ['/'] ∧ ('/' :: l).getLast? = some '/'
    · rw [if_pos hc]
      rcases l with _ | ⟨b, t⟩
      · exact absurd rfl h
      · rfl
    · rw [if_neg hc]
      rfl

theorem dropLast_append_of_getLast? (l : List Char) (c : Char)
    (h : l.getLast? = some c) : l.dropLast ++ [c] = l :=
  List.dropLast_append_getLast? c h

theorem getLast?_normPath (l : List Char)
    (h2 : ¬ (['/', '/'] <:+ l)) :
    (normPath l).getLast? = some '/' → normPath l = ['/'] := by
  intro hlast
  by_cases hnil : l = []
  · rw [hnil, normPath_nil] at hlast
    simp at hlast
  unfold normPath at hlast ⊢
  rw [if_neg hnil] at hlast ⊢
  by_cases hstart : l.head? = some '/'
  · rw [if_pos hstart] at hlast ⊢
    by_cases hc : l ≠ ['/'] ∧ l.getLast? = some '/'
    · rw [if_pos hc] at hlast
      exfalso
      -- the result still ends in '/', so l ends in "//"
      have hr : l.dropLast.dropLast ++ ['/'] = l.dropLast :=
        dropLast_append_of_getLast? _ _ hlast
      have hfull : l.dropLast ++ ['/'] = l :=
        dropLast_append_of_getLast? _ _ hc.2
      have hsuffix : l.dropLast.dropLast ++ ['/', '/'] = l := by
        rw [← hfull, ← hr]
        simp
      exact h2 ⟨l.dropLast.dropLast, hsuffix⟩
    · rw [if_neg hc] at hlast ⊢
      push_neg at hc
      by_cases hne : l = ['/']
      · exact hne
      · exact absurd hlast (hc hne)
  · rw [if_neg hstart] at hlast ⊢
    by_cases hc : ('/' :: l) ≠ ['/'] ∧ ('/' :: l).getLast? = some '/'
    · rw [if_pos hc] at hlast
      exfalso
      have hr : ('/' :: l).dropLast.dropLast ++ ['/'] = ('/' :: l).dropLast :=
        dropLast_append_of_getLast? _ _ hlast
      have hfull : ('/' :: l).dropLast ++ ['/'] = ('/' :: l) :=
        dropLast_append_of_getLast? _ _ hc.2
      have hsuffix : ('/' :: l).dropLast.dropLast ++ ['/', '/'] = '/' :: l := by
        rw [← hfull, ← hr]
        simp
      rcases hd : ('/' :: l).dropLast.dropLast with _ | ⟨a, t⟩
      · rw [hd] at hsuffix
        simp only [List.nil_append] at hsuffix
        injection hsuffix with _ htail
        subst htail
        exact hstart rfl
      · rw [hd] at hsuffix
        simp only [List.cons_append] at hsuffix
        injection hsuffix with _ htail
        exact h2 ⟨t, htail⟩
    · rw [if_neg hc] at hlast ⊢
      push_neg at hc
      by_cases hne : ('/' :: l) = ['/']
      · exact hne
      · exact absurd hlast (hc hne)

theorem normPath_fixed (r : List Char) (hhead : r.head? = some '/')
    (hlast : r.getLast? = some '/' → r = ['/']) : normPath r = r := by
  have hrne : r ≠ [] := by
    intro h; rw [h] at hhead; simp at hhead
  unfold normPath
  rw [if_neg hrne, if_pos hhead]
  by_cases hc : r ≠ ['/'] ∧ r.getLast? = some '/'
  · exact absurd (hlast hc.2) hc.1
  · rw [if_neg hc]

theorem normPath_idem (l : List Char) (h2 : ¬ (['/', '/'] <:+ l)) :
    normPath (normPath l) = normPath l := by
  by_cases hnil : l = []
  · rw [hnil, normPath_nil, normPath_nil]
  · exact normPath_fixed _ (head?_normPath l hnil) (getLast?_normPath l h2)

/-! ### Facts about `dictInsert` and the mapper state -/

theorem lookup_dictInsert_self {α : Type} (k : String) (v : α)
    (l : List (String × α)) : (dictInsert k v l).lookup k = some v := by
  induction l with
  | nil => simp [dictInsert, List.lookup]
  | cons hd t ih =>
    obtain ⟨k', v'⟩ := hd
    by_cases hk : k' = k
    · subst hk
      simp [dictInsert, List.lookup]
    · simp only [dictInsert, if_neg hk, List.lookup]
      have : (k == k') = false := by
        simp [Ne.symm hk]
      rw [this]
      exact ih

theorem lookup_dictInsert_ne {α : Type} (k k' : String) (v : α)
    (l : List (String × α)) (h : k' ≠ k) :
    (dictInsert k v l).lookup k' = l.lookup k' := by
  induction l with
  | nil =>
    simp only [dictInsert, List.lookup]
    have : (k' == k) = false := by simp [h]
    rw [this]
  | cons hd t ih =>
    obtain ⟨k0, v0⟩ := hd
    by_cases hk : k0 = k
    · subst hk
      simp only [dictInsert, if_pos rfl, List.lookup]
      have : (k' == k0) = false := by simp [h]
      rw [this]
    · simp only [dictInsert, if_neg hk, List.lookup]
      cases hkk : (k' == k0) with
      | true => rfl
      | false => exact ih

theorem lookup_dictInsert_isSome {α : Type} (k fp : String) (v : α)
    (l : List (String × α)) (h : (l.lookup fp).isSome) :
    ((dictInsert k v l).lookup fp).isSome := by
  by_cases hk : fp = k
  · subst hk
    rw [lookup_dictInsert_self]
    rfl
  · rw [lookup_dictInsert_ne k fp v l hk]
    exact h

theorem ensureRouter_api_registry (st : MapperState) (svc : String) :
    (ensureRouter st svc).api_registry = st.api_registry := by
  unfold ensureRouter
  split
  · rfl
  · rfl

theorem add_api_route_true_registry (st : MapperState) (svc p : String)
    (ms : List String) (h : (add_api_route st svc p ms).1 = true) :
    (add_api_route st svc p ms).2.api_registry =
      dictInsert (fullPathFor st svc p)
        (ApiInfo.mk svc (normalizePath p) (fullPathFor st svc p)
          (ms.map strUpper))
        st.api_registry := by
  by_cases hc : check_path_conflict (ensureRouter st svc).api_registry
      (fullPathFor st svc p) (ms.map strUpper) = true
  · exfalso
    unfold add_api_route at h
    rw [if_pos hc] at h
    cases h
  · unfold add_api_route
    rw [if_neg hc]
    show dictInsert _ _ (ensureRouter st svc).api_registry = _
    rw [ensureRouter_api_registry]

/-- C1: with the flag unset and no sanctioned gateway frame on the stack,
`handle_request` yields a `PermissionError` and never runs the impl. -/
theorem c1_handle_request_rejects_unsanctioned {R : Type}
    (service_id : String) (stack : List Frame) (impl : String → String → R)
    (action data : String)
    (h : ∀ f ∈ stack, frameSanctioned f = false) :
    handle_request service_id stack false impl action data =
      .permissionError
        (s!"非法调用引擎 {service_id}！请通过 LinkGateway 的内部通信机制调用。") := by
  unfold handle_request validate_caller
  have hany : stack.any frameSanctioned = false := by
    simp only [List.any_eq_false]
    intro f hf
    simp [h f hf]
  simp [hany]

/-- Witness for C1 at a concrete direct-call stack. -/
theorem c1_witness :
    (∀ f ∈ [Frame.mk "/app/engines/FileEngine/file_engine.py" "main"],
        frameSanctioned f = false) ∧
    handle_request "file-engine"
        [Frame.mk "/app/engines/FileEngine/file_engine.py" "main"] false
        (fun _ _ => "handled") "ping" "{}" =
      .permissionError
        "非法调用引擎 file-engine！请通过 LinkGateway 的内部通信机制调用。" := by
  refine ⟨by decide, ?_⟩
  exact c1_handle_request_rejects_unsanctioned "file-engine" _ _ "ping" "{}"
    (by decide)

/-- C10, counterexample: `_normalize_path` strips only one trailing slash,
so on `"x//"` it is not idempotent and its output `"/x/"` ends in a slash
without being the root path. -/
theorem c10_counterexample :
    normalizePath (normalizePath "x//") ≠ normalizePath "x//" ∧
    normalizePath "x//" = "/x/" := by
  constructor
  · decide
  · decide

/-- C10, amended: `_normalize_path` maps the empty string to itself; for
every non-empty input the result starts with a slash; and for every input
that does not end in a double slash, normalization is idempotent and the
result ends in a slash only when it is exactly the root path. -/
theorem c10_normalize_path_amended (p : String) :
    (p = "" → normalizePath p = "") ∧
    (p ≠ "" → (normalizePath p).toList.head? = some '/') ∧
    (¬ (['/', '/'] <:+ p.toList) →
      normalizePath (normalizePath p) = normalizePath p ∧
      ((normalizePath p).toList.getLast? = some '/' → normalizePath p = "/")) := by
  refine ⟨?_, ?_, ?_⟩
  · intro h
    subst h
    decide
  · intro h
    have hl : p.toList ≠ [] := by
      intro hn
      apply h
      rw [← String.toList_inj, hn]
      decide
    exact head?_normPath p.toList hl
  · intro h2
    refine ⟨?_, ?_⟩
    · show String.mk (normPath (normPath p.toList)) = String.mk (normPath p.toList)
      rw [normPath_idem p.toList h2]
    · intro hlast
      show String.mk (normPath p.toList) = "/"
      rw [getLast?_normPath p.toList h2 hlast]

/-- C2, counterexample: dispatching to a target that is not in the engine
registry makes `InnerCommunicator.send_request` return `None` — no
`ResultEnvelope` at all. -/
theorem c2_counterexample :
    send_request [] "rid-1" "missing-engine" "ping" "{}" = none := rfl

/-- C2, amended: when the target is registered, `send_request` returns
exactly one envelope carrying the request id with status success or error
(handler exceptions are converted, never propagated); when the target is
missing it returns `None` rather than an envelope; `forward_request`
returns an error result (not nothing) for a missing engine. -/
theorem c2_dispatch_amended (reg : List (String × EngineBehavior))
    (healthy : String → Bool) (rid target action data : String) :
    (∀ e, reg.lookup target = some e →
      ∃ env, send_request reg rid target action data = some env ∧
        env.request_id = rid ∧
        (env.status = "success" ∨ env.status = "error")) ∧
    (reg.lookup target = none → send_request reg rid target action data = none) ∧
    (target ≠ "" → action ≠ "" → reg.lookup target = none →
      (forward_request reg healthy target action data).status = "error") := by
  refine ⟨?_, ?_, ?_⟩
  · intro e he
    unfold send_request
    rw [he]
    cases h : e.handle action data with
    | ok st rd =>
      refine ⟨responseSuccess rid rd, ?_, rfl, Or.inl rfl⟩
      simp [h]
    | exn m =>
      refine ⟨responseError rid 500 m, ?_, rfl, Or.inr rfl⟩
      simp [h]
  · intro hnone
    unfold send_request
    rw [hnone]
  · intro hid hact hnone
    unfold forward_request
    rw [if_neg hid, if_neg hact, hnone]

/-- Witness for C2's amended theorem at concrete registries. -/
theorem c2_witness :
    ([("eng", engineRaisingBoom)].lookup "eng" = some engineRaisingBoom ∧
      ([] : List (String × EngineBehavior)).lookup "eng" = none ∧
      ("eng" : String) ≠ "" ∧ ("ping" : String) ≠ "") ∧
    (∃ env, send_request [("eng", engineRaisingBoom)] "rid-7" "eng" "ping" "d" =
        some env ∧ env.request_id = "rid-7" ∧
        (env.status = "success" ∨ env.status = "error")) ∧
    send_request [] "rid-7" "eng" "ping" "d" = none ∧
    (forward_request [] (fun _ => true) "eng" "ping" "d").status = "error" :=
  ⟨⟨rfl, rfl, by decide, by decide⟩,
    (c2_dispatch_amended [("eng", engineRaisingBoom)] (fun _ => true)
        "rid-7" "eng" "ping" "d").1 engineRaisingBoom rfl,
    (c2_dispatch_amended [] (fun _ => true) "rid-7" "eng" "ping" "d").2.1 rfl,
    (c2_dispatch_amended [] (fun _ => true) "rid-7" "eng" "ping" "d").2.2
      (by decide) (by decide) rfl⟩

/-- C8: whenever both looked-up descriptors are engines,
`is_service_allowed` returns false. -/
theorem c8_engine_to_engine_denied (db : List (String × DbService))
    (src tgt : String) (s t : DbService)
    (hs : db.lookup src = some s) (ht : db.lookup tgt = some t)
    (hse : s.service_type = .engine) (hte : t.service_type = .engine) :
    is_service_allowed db src tgt = false := by
  unfold is_service_allowed
  rw [hs, ht]
  simp [hse, hte]

/-- Witness for C8 on a two-engine registry. -/
theorem c8_witness :
    ([("e1", DbService.mk .engine), ("e2", DbService.mk .engine)].lookup "e1" =
        some (DbService.mk .engine) ∧
      [("e1", DbService.mk .engine), ("e2", DbService.mk .engine)].lookup "e2" =
        some (DbService.mk .engine)) ∧
    is_service_allowed [("e1", DbService.mk .engine), ("e2", DbService.mk .engine)]
      "e1" "e2" = false :=
  ⟨⟨by decide, by decide⟩,
    c8_engine_to_engine_denied _ "e1" "e2" (DbService.mk .engine)
      (DbService.mk .engine) (by decide) (by decide) rfl rfl⟩

/-- C3: after a successful registration, a second registration computing
the same full path with an intersecting (upper-cased) method set is
rejected — `add_api_route` returns `false`, the api registry is left
entirely unchanged, and the first owner's entry is still present with its
original service id and method list. -/
theorem c3_conflicting_route_rejected (st : MapperState)
    (svc1 p1 svc2 p2 : String) (ms1 ms2 : List String)
    (h1 : (add_api_route st svc1 p1 ms1).1 = true)
    (hsame : fullPathFor (add_api_route st svc1 p1 ms1).2 svc2 p2 =
      fullPathFor st svc1 p1)
    (hoverlap : (ms2.map strUpper).any
      (fun m => (ms1.map strUpper).contains m) = true) :
    (add_api_route (add_api_route st svc1 p1 ms1).2 svc2 p2 ms2).1 = false ∧
    (add_api_route (add_api_route st svc1 p1 ms1).2 svc2 p2 ms2).2.api_registry =
      (add_api_route st svc1 p1 ms1).2.api_registry ∧
    (add_api_route st svc1 p1 ms1).2.api_registry.lookup (fullPathFor st svc1 p1) =
      some (ApiInfo.mk svc1 (normalizePath p1) (fullPathFor st svc1 p1)
        (ms1.map strUpper)) := by
  have hfirst := add_api_route_true_registry st svc1 p1 ms1 h1
  have hlook : (add_api_route st svc1 p1 ms1).2.api_registry.lookup
      (fullPathFor st svc1 p1) =
      some (ApiInfo.mk svc1 (normalizePath p1) (fullPathFor st svc1 p1)
        (ms1.map strUpper)) := by
    rw [hfirst]
    exact lookup_dictInsert_self _ _ _
  have hc2 : check_path_conflict
      (ensureRouter (add_api_route st svc1 p1 ms1).2 svc2).api_registry
      (fullPathFor (add_api_route st svc1 p1 ms1).2 svc2 p2)
      (ms2.map strUpper) = true := by
    rw [ensureRouter_api_registry, hsame]
    unfold check_path_conflict
    rw [hlook]
    exact hoverlap
  refine ⟨?_, ?_, hlook⟩
  · generalize hg : (add_api_route st svc1 p1 ms1).2 = st1 at hc2 ⊢
    unfold add_api_route
    rw [if_pos hc2]
  · generalize hg : (add_api_route st svc1 p1 ms1).2 = st1 at hc2 ⊢
    unfold add_api_route
    rw [if_pos hc2]
    exact ensureRouter_api_registry _ _

/-- Witness for C3: `svc-a` registers `GET /foo`; `svc-b` then attempts
`get /foo` and is rejected with the registry unchanged. -/
theorem c3_witness :
    ((add_api_route initMapperState "svc-a" "/foo" ["GET"]).1 = true ∧
      fullPathFor (add_api_route initMapperState "svc-a" "/foo" ["GET"]).2
        "svc-b" "/foo" = fullPathFor initMapperState "svc-a" "/foo" ∧
      (["get"].map strUpper).any
        (fun m => (["GET"].map strUpper).contains m) = true) ∧
    ((add_api_route (add_api_route initMapperState "svc-a" "/foo" ["GET"]).2
        "svc-b" "/foo" ["get"]).1 = false ∧
      (add_api_route (add_api_route initMapperState "svc-a" "/foo" ["GET"]).2
        "svc-b" "/foo" ["get"]).2.api_registry =
        (add_api_route initMapperState "svc-a" "/foo" ["GET"]).2.api_registry ∧
      (add_api_route initMapperState "svc-a" "/foo" ["GET"]).2.api_registry.lookup
        (fullPathFor initMapperState "svc-a" "/foo") =
        some (ApiInfo.mk "svc-a" (normalizePath "/foo")
          (fullPathFor initMapperState "svc-a" "/foo")
          (["GET"].map strUpper))) :=
  ⟨⟨by decide, by decide, by decide⟩,
    c3_conflicting_route_rejected initMapperState "svc-a" "/foo" "svc-b" "/foo"
      ["GET"] ["get"] (by decide) (by decide) (by decide)⟩

/-! ### Facts about the mapping passes, used by claim C7 -/

theorem register_engine_api_mounted (st : MapperState) (svc pfx : String)
    (a : ApiDef) : (register_engine_api st svc pfx a).mounted = st.mounted := by
  unfold register_engine_api
  split
  · rfl
  · rfl

theorem foldl_register_mounted (svc pfx : String) :
    ∀ (l : List ApiDef) (s : MapperState),
    (l.foldl (fun s a => register_engine_api s svc pfx a) s).mounted = s.mounted
  | [], s => rfl
  | a :: t, s => by
    rw [List.foldl_cons, foldl_register_mounted svc pfx t _,
      register_engine_api_mounted]

theorem map_engine_service_mounted (st : MapperState) (svc : String)
    (apis : List ApiDef) :
    (map_engine_service st svc apis).mounted = st.mounted := by
  unfold map_engine_service
  rw [foldl_register_mounted]
  rfl

theorem mapServiceState_mounted (bizOk : String → Bool) (s : MapperState)
    (svc : SvcEntry) (x : String)
    (hx : x ∈ (mapServiceState bizOk s svc).mounted) :
    x ∈ s.mounted ∨ (svc.type = .business ∧ svc.service_id = x) := by
  obtain ⟨id, ty, apis⟩ := svc
  cases ty with
  | business =>
    unfold mapServiceState map_business_service at hx
    by_cases hok : bizOk id = true
    · rw [if_pos hok] at hx
      simp only at hx
      rcases List.mem_append.mp hx with h | h
      · exact Or.inl h
      · simp only [List.mem_singleton] at h
        exact Or.inr ⟨rfl, h.symm⟩
    · rw [if_neg hok] at hx
      exact Or.inl hx
  | engine =>
    unfold mapServiceState at hx
    rw [map_engine_service_mounted] at hx
    exact Or.inl hx

theorem register_engine_api_preserves (st : MapperState) (svc pfx : String)
    (a : ApiDef) (fp : String)
    (h : (st.api_registry.lookup fp).isSome) :
    (((register_engine_api st svc pfx a).api_registry).lookup fp).isSome := by
  unfold register_engine_api
  split
  · exact h
  · exact lookup_dictInsert_isSome _ _ _ _ h

theorem foldl_register_preserves (svc pfx fp : String) :
    ∀ (l : List ApiDef) (s : MapperState),
    (s.api_registry.lookup fp).isSome →
    (((l.foldl (fun s a => register_engine_api s svc pfx a) s).api_registry).lookup
      fp).isSome
  | [], _, h => h
  | a :: t, s, h => by
    rw [List.foldl_cons]
    exact foldl_register_preserves svc pfx fp t _
      (register_engine_api_preserves s svc pfx a fp h)

theorem register_engine_api_self (st : MapperState) (svc pfx : String)
    (a : ApiDef) :
    (((register_engine_api st svc pfx a).api_registry).lookup
      (pfx ++ normalizePath a.path)).isSome := by
  unfold register_engine_api
  by_cases hc : check_path_conflict st.api_registry (pfx ++ normalizePath a.path)
      [strUpper a.method] = true
  · rw [if_pos hc]
    cases hl : st.api_registry.lookup (pfx ++ normalizePath a.path) with
    | none =>
      unfold check_path_conflict at hc
      rw [hl] at hc
      cases hc
    | some info => rfl
  · rw [if_neg hc]
    rw [lookup_dictInsert_self]
    rfl

theorem foldl_register_establishes (svc pfx : String) :
    ∀ (l : List ApiDef) (s : MapperState) (a : ApiDef), a ∈ l →
    (((l.foldl (fun s a => register_engine_api s svc pfx a) s).api_registry).lookup
      (pfx ++ normalizePath a.path)).isSome
  | [], _, a, ha => absurd ha (List.not_mem_nil a)
  | b :: t, s, a, ha => by
    rw [List.foldl_cons]
    rcases List.mem_cons.mp ha with heq | hmem
    · subst heq
      exact foldl_register_preserves svc pfx _ t _
        (register_engine_api_self s svc pfx a)
    · exact foldl_register_establishes svc pfx t _ a hmem

theorem map_engine_service_records (st : MapperState) (svc : String)
    (apis : List ApiDef) (a : ApiDef) (ha : a ∈ apis) :
    (((map_engine_service st svc apis).api_registry).lookup
      (normalizePath (engineApiPrefix svc) ++ normalizePath a.path)).isSome := by
  unfold map_engine_service
  exact foldl_register_establishes svc _ apis _ a ha

theorem map_business_service_registry (st : MapperState) (svc : String)
    (ok : Bool) :
    (map_business_service st svc ok).2.api_registry = st.api_registry := by
  unfold map_business_service
  split
  · rfl
  · rfl

theorem mapServiceState_preserves (bizOk : String → Bool) (s : MapperState)
    (svc : SvcEntry) (fp : String)
    (h : (s.api_registry.lookup fp).isSome) :
    (((mapServiceState bizOk s svc).api_registry).lookup fp).isSome := by
  obtain ⟨id, ty, apis⟩ := svc
  cases ty with
  | business =>
    unfold mapServiceState
    rw [map_business_service_registry]
    exact h
  | engine =>
    unfold mapServiceState map_engine_service
    exact foldl_register_preserves id _ fp apis _ h

theorem foldl_mss_preserves (bizOk : String → Bool) (fp : String) :
    ∀ (l : List SvcEntry) (s : MapperState),
    (s.api_registry.lookup fp).isSome →
    (((l.foldl (mapServiceState bizOk) s).api_registry).lookup fp).isSome
  | [], _, h => h
  | svc :: t, s, h => by
    rw [List.foldl_cons]
    exact foldl_mss_preserves bizOk fp t _ (mapServiceState_preserves bizOk s svc fp h)

theorem foldl_mss_mounted (bizOk : String → Bool) :
    ∀ (l : List SvcEntry) (s : MapperState) (x : String),
    x ∈ (l.foldl (mapServiceState bizOk) s).mounted →
    x ∈ s.mounted ∨ ∃ svc ∈ l, svc.type = .business ∧ svc.service_id = x
  | [], _, _, h => Or.inl h
  | svc :: t, s, x, h => by
    rw [List.foldl_cons] at h
    rcases foldl_mss_mounted bizOk t _ x h with h' | ⟨svc', hmem, hb⟩
    · rcases mapServiceState_mounted bizOk s svc x h' with h'' | ⟨hbiz, hid⟩
      · exact Or.inl h''
      · exact Or.inr ⟨svc, List.mem_cons_self svc t, hbiz, hid⟩
    · exact Or.inr ⟨svc', List.mem_cons_of_mem svc hmem, hb⟩

theorem foldl_mss_engine_records (bizOk : String → Bool) :
    ∀ (l : List SvcEntry) (s : MapperState) (svc : SvcEntry), svc ∈ l →
    svc.type = .engine → ∀ a ∈ svc.apis,
    (((l.foldl (mapServiceState bizOk) s).api_registry).lookup
      (normalizePath (engineApiPrefix svc.service_id) ++ normalizePath a.path)).isSome
  | [], _, svc, hmem, _, _, _ => absurd hmem (List.not_mem_nil svc)
  | svc0 :: t, s, svc, hmem, hty, a, ha => by
    rw [List.foldl_cons]
    rcases List.mem_cons.mp hmem with heq | hmem'
    · subst heq
      apply foldl_mss_preserves
      obtain ⟨id, ty, apis⟩ := svc
      cases hty
      unfold mapServiceState
      exact map_engine_service_records s id apis a ha
    · exact foldl_mss_engine_records bizOk t _ svc hmem' hty a ha

theorem map_all_apis_snd (bizOk : String → Bool) :
    ∀ (services : List SvcEntry)
      (acc : (List String × List String) × MapperState),
    (services.foldl
      (fun acc svc =>
        match svc.type with
        | .business =>
          if bizOk svc.service_id then
            ((acc.1.1 ++ [svc.service_id], acc.1.2), mapServiceState bizOk acc.2 svc)
          else
            ((acc.1.1, acc.1.2 ++ [svc.service_id]), mapServiceState bizOk acc.2 svc)
        | .engine =>
          ((acc.1.1 ++ [svc.service_id], acc.1.2), mapServiceState bizOk acc.2 svc))
      acc).2 = services.foldl (mapServiceState bizOk) acc.2
  | [], _ => rfl
  | svc :: t, acc => by
    rw [List.foldl_cons, List.foldl_cons, map_all_apis_snd bizOk t _]
    congr 1
    obtain ⟨id, ty, apis⟩ := svc
    cases ty with
    | business =>
      simp only
      split
      · rfl
      · rfl
    | engine => rfl

/-- C7: `map_all_apis` mounts only business routers — every id in the
mounted list comes from the initial state or from a business entry — and
for every engine entry all of its declared doc routes end up present in
the api registry (hence in the `/apis` listing) under the engine-scoped
prefix. -/
theorem c7_engine_routes_doc_only (st0 : MapperState)
    (services : List SvcEntry) (bizOk : String → Bool) :
    (∀ x, x ∈ (map_all_apis st0 services bizOk).2.mounted →
      x ∈ st0.mounted ∨ ∃ svc ∈ services, svc.type = .business ∧ svc.service_id = x) ∧
    (∀ svc ∈ services, svc.type = .engine → ∀ a ∈ svc.apis,
      (((map_all_apis st0 services bizOk).2.api_registry).lookup
        (normalizePath (engineApiPrefix svc.service_id) ++
          normalizePath a.path)).isSome) := by
  have hsnd : (map_all_apis st0 services bizOk).2 =
      services.foldl (mapServiceState bizOk)
        { st0 with registered_apis := [] } := by
    unfold map_all_apis
    exact map_all_apis_snd bizOk services _
  constructor
  · intro x hx
    rw [hsnd] at hx
    exact foldl_mss_mounted bizOk services
      { st0 with registered_apis := [] } x hx
  · intro svc hmem hty a ha
    rw [hsnd]
    exact foldl_mss_engine_records bizOk services
      { st0 with registered_apis := [] } svc hmem hty a ha

/-- The service list of the C7 witness: one business, one engine. -/
def c7Services : List SvcEntry :=
  [SvcEntry.mk "post-service" .business [],
    SvcEntry.mk "file-engine" .engine [ApiDef.mk "/posts" "get"]]

/-- Witness for C7 on a concrete business/engine service list. -/
theorem c7_witness :
    ("post-service" ∈ (map_all_apis initMapperState c7Services
        (fun _ => true)).2.mounted ∧
      SvcEntry.mk "file-engine" .engine [ApiDef.mk "/posts" "get"] ∈ c7Services ∧
      (SvcEntry.mk "file-engine" .engine [ApiDef.mk "/posts" "get"]).type = .engine ∧
      ApiDef.mk "/posts" "get" ∈
        (SvcEntry.mk "file-engine" .engine [ApiDef.mk "/posts" "get"]).apis) ∧
    ("post-service" ∈ initMapperState.mounted ∨
      ∃ svc ∈ c7Services, svc.type = .business ∧ svc.service_id = "post-service") ∧
    (((map_all_apis initMapperState c7Services (fun _ => true)).2.api_registry).lookup
      (normalizePath (engineApiPrefix "file-engine") ++
        normalizePath "/posts")).isSome :=
  ⟨⟨by decide, by decide, by decide, by decide⟩,
    (c7_engine_routes_doc_only initMapperState c7Services (fun _ => true)).1
      "post-service" (by decide),
    (c7_engine_routes_doc_only initMapperState c7Services (fun _ => true)).2
      (SvcEntry.mk "file-engine" .engine [ApiDef.mk "/posts" "get"]) (by decide)
      rfl (ApiDef.mk "/posts" "get") (by decide)⟩

/-- C6, code bug: `validate_service_json` reports the manifest with a
missing `service_id` as valid, because `if not cls._check_required_fields(...)`
tests the truthiness of the returned non-empty dict (always true), so the
missing-field result — shown in the second conjunct — is discarded. -/
theorem c6_validate_reports_valid_despite_missing_field :
    validate_service_json c6ManifestMissingId =
      [("valid", .b true), ("reason", .s "Service JSON format is valid")] ∧
    check_required_fields c6ManifestMissingId serviceRequiredFields =
      [("valid", .b false),
        ("reason", .s "Missing required field: service_id")] := by
  exact ⟨rfl, rfl⟩

/-! ### Facts about the plugin hook loops, used by claim C9 -/

theorem chainFirst_all_none (hook : PluginP → HOut String) :
    ∀ ps : List PluginP, (∀ q ∈ ps, ∀ r, hook q ≠ .ret (some r)) →
    chainFirst hook ps = (none, ps.map PluginP.name)
  | [], _ => rfl
  | p :: t, h => by
    have hp := h p (List.mem_cons_self p t)
    have ht : ∀ q ∈ t, ∀ r, hook q ≠ .ret (some r) :=
      fun q hq => h q (List.mem_cons_of_mem p hq)
    cases hh : hook p with
    | ret r =>
      cases r with
      | some v => exact absurd hh (hp v)
      | none =>
        simp only [chainFirst, hh]
        rw [chainFirst_all_none hook t ht]
        rfl
    | exn m =>
      simp only [chainFirst, hh]
      rw [chainFirst_all_none hook t ht]
      rfl

theorem chainFirst_first_some (hook : PluginP → HOut String) :
    ∀ (xs : List PluginP) (p : PluginP) (ys : List PluginP) (r : String),
    (∀ q ∈ xs, ∀ r0, hook q ≠ .ret (some r0)) → hook p = .ret (some r) →
    chainFirst hook (xs ++ p :: ys) = (some r, xs.map PluginP.name ++ [p.name])
  | [], p, ys, r, _, hp => by
    simp only [List.nil_append, chainFirst, hp, List.map_nil]
  | q :: xs, p, ys, r, hq, hp => by
    have h0 := hq q (List.mem_cons_self q xs)
    have hxs : ∀ q' ∈ xs, ∀ r0, hook q' ≠ .ret (some r0) :=
      fun q' hq' => hq q' (List.mem_cons_of_mem q hq')
    cases hh : hook q with
    | ret r0 =>
      cases r0 with
      | some v => exact absurd hh (h0 v)
      | none =>
        simp only [List.cons_append, chainFirst, hh]
        rw [show xs.append (p :: ys) = xs ++ p :: ys from rfl,
          chainFirst_first_some hook xs p ys r hxs hp]
        rfl
    | exn m =>
      simp only [List.cons_append, chainFirst, hh]
      rw [show xs.append (p :: ys) = xs ++ p :: ys from rfl,
        chainFirst_first_some hook xs p ys r hxs hp]
      rfl

theorem runAll_names (hook : PluginP → HOut Unit) :
    ∀ ps : List PluginP, runAll hook ps = ps.map PluginP.name
  | [] => rfl
  | p :: t => by
    cases hh : hook p with
    | ret r =>
      simp only [runAll, hh]
      rw [runAll_names hook t]
      rfl
    | exn m =>
      simp only [runAll, hh]
      rw [runAll_names hook t]
      rfl

/-- C9: the short-circuiting hooks (request-incoming, route-matching,
response-outgoing) invoke plugins in registration order and stop at the
first non-`None` result, after visiting every earlier plugin — in
particular plugins that raised; with no non-`None` result they visit all
plugins and return `None`. The observational hooks
(service-calling-engine, engine-responding) always invoke every plugin
and never short-circuit, even past raising plugins. -/
theorem c9_plugin_hook_chains :
    (∀ (xs : List PluginP) (p : PluginP) (ys : List PluginP) (req r : String),
      (∀ q ∈ xs, ∀ r0, q.onRequestIncoming req ≠ .ret (some r0)) →
      p.onRequestIncoming req = .ret (some r) →
      notify_request_incoming (xs ++ p :: ys) req =
        (some r, xs.map PluginP.name ++ [p.name])) ∧
    (∀ (ps : List PluginP) (req : String),
      (∀ q ∈ ps, ∀ r0, q.onRequestIncoming req ≠ .ret (some r0)) →
      notify_request_incoming ps req = (none, ps.map PluginP.name)) ∧
    (∀ (xs : List PluginP) (p : PluginP) (ys : List PluginP)
        (path method r : String),
      (∀ q ∈ xs, ∀ r0, q.onRouteMatching path method ≠ .ret (some r0)) →
      p.onRouteMatching path method = .ret (some r) →
      notify_route_matching (xs ++ p :: ys) path method =
        (some r, xs.map PluginP.name ++ [p.name])) ∧
    (∀ (xs : List PluginP) (p : PluginP) (ys : List PluginP) (resp r : String),
      (∀ q ∈ xs, ∀ r0, q.onResponseOutgoing resp ≠ .ret (some r0)) →
      p.onResponseOutgoing resp = .ret (some r) →
      notify_response_outgoing (xs ++ p :: ys) resp =
        (some r, xs.map PluginP.name ++ [p.name])) ∧
    (∀ (ps : List PluginP) (service_id engine_id action data : String),
      notify_service_calling_engine ps service_id engine_id action data =
        ps.map PluginP.name) ∧
    (∀ (ps : List PluginP) (engine_id action response : String),
      notify_engine_responding ps engine_id action response =
        ps.map PluginP.name) := by
  refine ⟨?_, ?_, ?_, ?_, ?_, ?_⟩
  · intro xs p ys req r hxs hp
    exact chainFirst_first_some _ xs p ys r hxs hp
  · intro ps req h
    exact chainFirst_all_none _ ps h
  · intro xs p ys path method r hxs hp
    exact chainFirst_first_some _ xs p ys r hxs hp
  · intro xs p ys resp r hxs hp
    exact chainFirst_first_some _ xs p ys r hxs hp
  · intro ps a b c d
    exact runAll_names _ ps
  · intro ps a b c
    exact runAll_names _ ps

/-- Witness for C9: a raising plugin followed by a responding plugin — the
raiser is visited, the responder's result short-circuits, and the
observational hook still visits both. -/
theorem c9_witness :
    ((∀ q ∈ [pluginRaiser], ∀ r0,
        q.onRequestIncoming "req" ≠ .ret (some r0)) ∧
      pluginResponder.onRequestIncoming "req" = .ret (some "canned")) ∧
    notify_request_incoming ([pluginRaiser] ++ pluginResponder :: []) "req" =
      (some "canned", [pluginRaiser].map PluginP.name ++ [pluginResponder.name]) ∧
    notify_service_calling_engine [pluginRaiser, pluginResponder]
      "svc" "eng" "act" "d" = [pluginRaiser, pluginResponder].map PluginP.name := by
  have hraise : ∀ q ∈ [pluginRaiser], ∀ r0,
      q.onRequestIncoming "req" ≠ HOut.ret (some r0) := by
    intro q hq r0 hcon
    rw [List.mem_singleton] at hq
    subst hq
    exact HOut.noConfusion hcon
  exact ⟨⟨hraise, rfl⟩,
    c9_plugin_hook_chains.1 [pluginRaiser] pluginResponder [] "req" "canned"
      hraise rfl,
    c9_plugin_hook_chains.2.2.2.2.1 [pluginRaiser, pluginResponder]
      "svc" "eng" "act" "d"⟩

/-- C4, counterexample: the registry creates the instance via
`engine_class(service_id, version)`, but `BaseEngine.__init__` draws a
fresh uuid for `service_id`; registration keys on that uuid, so
`get_engine` on the manifest's declared `service_id` finds nothing. -/
theorem c4_counterexample :
    get_engine
      (register_engine_to_memory []
        (create_engine_instance "8f2c0e9a-1b2c-4d3e-8f40-5a6b7c8d9e0f"
          sampleEngineConfig))
      "file-engine" = none ∧
    (create_engine_instance "8f2c0e9a-1b2c-4d3e-8f40-5a6b7c8d9e0f"
      sampleEngineConfig).service_id ≠ sampleEngineConfig.service_id := by
  constructor
  · decide
  · decide

/-- C4, amended: the created instance carries the manifest's
`service_name`, `version` and `engine_kind`, but its `service_id` is the
freshly generated uuid; registration keys on that uuid, so `get_engine`
succeeds on the generated id and leaves the declared id unmapped. -/
theorem c4_engine_identity_amended (freshId : String) (cfg : EngineConfig)
    (mem : List (String × EngineInst)) (h : freshId ≠ cfg.service_id) :
    (create_engine_instance freshId cfg).service_id = freshId ∧
    (create_engine_instance freshId cfg).service_name = cfg.service_name ∧
    (create_engine_instance freshId cfg).version = cfg.version ∧
    (create_engine_instance freshId cfg).engine_type = cfg.engine_type ∧
    get_engine (register_engine_to_memory mem (create_engine_instance freshId cfg))
      freshId = some (create_engine_instance freshId cfg) ∧
    get_engine (register_engine_to_memory mem (create_engine_instance freshId cfg))
      cfg.service_id = mem.lookup cfg.service_id := by
  refine ⟨rfl, rfl, rfl, rfl, ?_, ?_⟩
  · exact lookup_dictInsert_self _ _ _
  · exact lookup_dictInsert_ne _ _ _ _ (Ne.symm h)

/-- Witness for C4's amended theorem at a concrete uuid and manifest. -/
theorem c4_witness :
    (("gen-uuid-1234" : String) ≠ sampleEngineConfig.service_id) ∧
    ((create_engine_instance "gen-uuid-1234" sampleEngineConfig).service_id =
        "gen-uuid-1234" ∧
      (create_engine_instance "gen-uuid-1234" sampleEngineConfig).service_name =
        sampleEngineConfig.service_name ∧
      (create_engine_instance "gen-uuid-1234" sampleEngineConfig).version =
        sampleEngineConfig.version ∧
      (create_engine_instance "gen-uuid-1234" sampleEngineConfig).engine_type =
        sampleEngineConfig.engine_type ∧
      get_engine (register_engine_to_memory []
          (create_engine_instance "gen-uuid-1234" sampleEngineConfig))
        "gen-uuid-1234" =
        some (create_engine_instance "gen-uuid-1234" sampleEngineConfig) ∧
      get_engine (register_engine_to_memory []
          (create_engine_instance "gen-uuid-1234" sampleEngineConfig))
        sampleEngineConfig.service_id =
        List.lookup sampleEngineConfig.service_id []) :=
  ⟨by decide,
    c4_engine_identity_amended "gen-uuid-1234" sampleEngineConfig [] (by decide)⟩

/-- C5, counterexample: a timed-out engine start still yields a discovery
entry with status `"valid"`, and the persisted reason is the generic
startup-failure message, which does not describe a timeout. -/
theorem c5_counterexample :
    (process_engine "uuid-0001" sampleEngineConfig (.timedOut "stopped") []).1.status =
      "valid" ∧
    (process_engine "uuid-0001" sampleEngineConfig (.timedOut "stopped") []).2.1 =
      DbRecord.mk "uuid-0001" "invalid"
        (some "Engine startup failed, current status: stopped") ∧
    strIn "timeout" "Engine startup failed, current status: stopped" = false ∧
    strIn "Timeout" "Engine startup failed, current status: stopped" = false := by
  refine ⟨rfl, by decide, by decide, by decide⟩

/-- C5, amended: a timed-out start returns `False` from the worker join;
when the engine's status at join time is not `"running"`, the persisted
descriptor is invalid with the generic reason
`"Engine startup failed, current status: <status>"` (no timeout
description); the discovery result nevertheless reports the entry with
status `"valid"`; and discovery processes every located entry,
one result each. -/
theorem c5_timeout_amended (freshId : String) (cfg : EngineConfig)
    (st : String) (h : st ≠ "running") :
    start_engine_with_timeout (.timedOut st) = false ∧
    (process_engine freshId cfg (.timedOut st) []).2.1.status = "invalid" ∧
    (process_engine freshId cfg (.timedOut st) []).2.1.reason =
      some s!"Engine startup failed, current status: {st}" ∧
    (process_engine freshId cfg (.timedOut st) []).1.status = "valid" ∧
    ∀ entries : List (String × EngineConfig × StartOutcome),
      (discover_engines entries).length = entries.length := by
  have hb : (st == "running") = false := by
    simp [h]
  refine ⟨rfl, ?_, ?_, rfl, ?_⟩
  · show (register_engine_to_db st freshId).status = "invalid"
    unfold register_engine_to_db
    rw [hb]
    rfl
  · show (register_engine_to_db st freshId).reason = _
    unfold register_engine_to_db
    rw [hb]
    rfl
  · intro entries
    exact List.length_map _ _

/-- Witness for C5's amended theorem at a concrete timed-out engine. -/
theorem c5_witness :
    (("stopped" : String) ≠ "running") ∧
    (start_engine_with_timeout (.timedOut "stopped") = false ∧
      (process_engine "uuid-0002" sampleEngineConfig (.timedOut "stopped") []).2.1.status =
        "invalid" ∧
      (process_engine "uuid-0002" sampleEngineConfig (.timedOut "stopped") []).2.1.reason =
        some "Engine startup failed, current status: stopped" ∧
      (process_engine "uuid-0002" sampleEngineConfig (.timedOut "stopped") []).1.status =
        "valid" ∧
      (discover_engines
        [("uuid-0002", sampleEngineConfig, .timedOut "stopped")]).length =
        [("uuid-0002", sampleEngineConfig, StartOutcome.timedOut "stopped")].length) :=
  ⟨by decide,
    (c5_timeout_amended "uuid-0002" sampleEngineConfig "stopped" (by decide)).1,
    (c5_timeout_amended "uuid-0002" sampleEngineConfig "stopped" (by decide)).2.1,
    (c5_timeout_amended "uuid-0002" sampleEngineConfig "stopped" (by decide)).2.2.1,
    (c5_timeout_amended "uuid-0002" sampleEngineConfig "stopped" (by decide)).2.2.2.1,
    (c5_timeout_amended "uuid-0002" sampleEngineConfig "stopped" (by decide)).2.2.2.2
      [("uuid-0002", sampleEngineConfig, StartOutcome.timedOut "stopped")]⟩

/-- Witness for C10 at the concrete input `"abc/"`. -/
theorem c10_witness :
    (("abc/" : String) ≠ "" ∧ ¬ (['/', '/'] <:+ ("abc/" : String).toList)) ∧
    ((normalizePath "abc/").toList.head? = some '/' ∧
      normalizePath (normalizePath "abc/") = normalizePath "abc/" ∧
      ((normalizePath "abc/").toList.getLast? = some '/' →
        normalizePath "abc/" = "/")) :=
  ⟨⟨by decide, by decide⟩,
    (c10_normalize_path_amended "abc/").2.1 (by decide),
    ((c10_normalize_path_amended "abc/").2.2 (by decide)).1,
    ((c10_normalize_path_amended "abc/").2.2 (by decide)).2⟩

end MyBlog
